import Mathlib

/-!
Verification of the Staff Identity & Access Control core of the repository
(staff backend: authentication, lockout, permissions, audit logging).

The TypeScript sources are shallowly embedded as Lean functions:
  - `StaffAccount` mirrors the row shape returned by the staff model
    (src/apps/staff-backend/src/models/staff.model.ts); timestamps are
    modelled as natural numbers counting minutes, matching the only
    interval arithmetic in the source (NOW() + INTERVAL '30 minutes').
  - SQL statements executed through the query helper are embedded by their
    standard PostgreSQL semantics on a list of rows (`WHERE email = $1` is
    exact string equality: the column is VARCHAR and no normalisation or
    collation is applied anywhere in the repository).
  - Password hashing (bcrypt) and token signing (JWT) are external
    libraries; the login and authentication functions therefore take the
    verification routines as explicit function parameters whose boolean /
    optional result is all the control flow inspects, exactly as in the
    source.
-/

namespace StaffCore

/-- Staff row as selected by the staff model queries.  The optional profile
columns (phone, department, position, employeeId) never influence any control
flow verified here and are omitted. -/
structure StaffAccount where
  id : String
  email : String
  passwordHash : String
  firstName : String
  lastName : String
  status : String
  isSuperAdmin : Bool
  failedLoginAttempts : Nat
  lockedUntil : Option Nat
  lastLoginAt : Option Nat
  passwordChangedAt : Option Nat
  deriving Repr, DecidableEq

/-- Client-facing JSON response: HTTP status code, success flag and the
error message of the body (none on success). -/
structure ApiResponse where
  status : Nat
  success : Bool
  error : Option String
  deriving Repr, DecidableEq

/-- Identity attached to the request by authenticateStaff (the req.staff
field of AuthRequest in auth.middleware.ts). -/
structure AuthStaff where
  id : String
  email : String
  isAdmin : Bool
  permissions : List String
  deriving Repr, DecidableEq

/-- Outcome of an express middleware: hand over to the next handler, or
short-circuit with a response. -/
inductive MwResult where
  | next (staff : AuthStaff)
  | respond (resp : ApiResponse)
  deriving Repr, DecidableEq

/-- JavaScript permission.split(':')[0]: the part of the string before the
first colon (the whole string when there is no colon). -/
def resourcePart (s : String) : String :=
  String.mk (s.toList.takeWhile (fun c => c ≠ ':'))

/-- Embedding of requirePermission (auth.middleware.ts).  Given the required
permission string and the request's attached staff identity (none when
authentication did not run), it either calls next() or responds 401/403. -/
def requirePermission (permission : String) (staff : Option AuthStaff) : MwResult :=
  match staff with
  | none => .respond ⟨401, false, some "Authentication required"⟩
  | some st =>
    if st.permissions.contains "*" then .next st
    else if st.permissions.contains permission then .next st
    else if st.permissions.contains (resourcePart permission ++ ":*") then .next st
    else .respond ⟨403, false, some "Insufficient permissions"⟩

/-- Embedding of StaffModel.findById: SELECT ... WHERE id = $1 (the id
column is the unique primary key; result[0] is the first matching row). -/
def findById (db : List StaffAccount) (id : String) : Option StaffAccount :=
  db.find? (fun s => s.id == id)

/-- Embedding of StaffModel.findByEmail: SELECT ... WHERE email = $1 on a
VARCHAR column, i.e. exact string equality. -/
def findByEmail (db : List StaffAccount) (email : String) : Option StaffAccount :=
  db.find? (fun s => s.email == email)

/-- Embedding of StaffModel.findByEmailWithPassword: same WHERE clause as
findByEmail, additionally selecting password_hash, failed_login_attempts and
locked_until (all present in our row type). -/
def findByEmailWithPassword (db : List StaffAccount) (email : String) :
    Option StaffAccount :=
  db.find? (fun s => s.email == email)

theorem takeWhile_append_stop {p : Char → Bool} (l1 l2 : List Char)
    (h : ∀ c ∈ l1, p c = true) (c0 : Char) (hc0 : p c0 = false) :
    (l1 ++ c0 :: l2).takeWhile p = l1 := by
  induction l1 with
  | nil => simp [List.takeWhile, hc0]
  | cons a l ih =>
    have ha : p a = true := h a (by simp)
    simp only [List.cons_append, List.takeWhile, ha]
    simp only [List.cons.injEq, true_and]
    exact ih (fun c hc => h c (by simp [hc]))

theorem resourcePart_append (resource act : String)
    (hres : (':' : Char) ∉ resource.toList) :
    resourcePart (resource ++ ":" ++ act) = resource := by
  unfold resourcePart
  have hdata : (resource ++ ":" ++ act).toList
      = resource.toList ++ ':' :: act.toList := by
    simp [String.toList, String.data_append]
  have hall : ∀ c ∈ resource.toList, (decide (c ≠ ':')) = true := by
    intro c hc
    simp only [decide_eq_true_eq]
    intro heq
    exact hres (heq ▸ hc)
  have hstop : (decide ((':' : Char) ≠ ':')) = false := by simp
  rw [hdata, takeWhile_append_stop _ _ hall _ hstop]
  cases resource
  rfl

/-- C1: for every required permission string resource:action (resource being
the part before the first colon) and every permission set attached to an
authenticated request, requirePermission calls next if and only if the set
contains the literal wildcard, the exact string, or the resource wildcard
resource:*; otherwise it denies with Forbidden (HTTP 403, insufficient
permissions). -/
theorem requirePermission_three_tier (resource act : String) (st : AuthStaff)
    (hres : (':' : Char) ∉ resource.toList) :
    (requirePermission (resource ++ ":" ++ act) (some st) = .next st ↔
      "*" ∈ st.permissions ∨ (resource ++ ":" ++ act) ∈ st.permissions ∨
        (resource ++ ":*") ∈ st.permissions) ∧
    (¬("*" ∈ st.permissions ∨ (resource ++ ":" ++ act) ∈ st.permissions ∨
        (resource ++ ":*") ∈ st.permissions) →
      requirePermission (resource ++ ":" ++ act) (some st)
        = .respond ⟨403, false, some "Insufficient permissions"⟩) := by
  have hr := resourcePart_append resource act hres
  simp only [requirePermission, hr]
  by_cases h1 : "*" ∈ st.permissions <;>
    by_cases h2 : (resource ++ ":" ++ act) ∈ st.permissions <;>
      by_cases h3 : (resource ++ ":*") ∈ st.permissions <;>
        simp [h1, h2, h3]

/-- C1 witness: with permission set containing exactly staff:read, the
required permission staff:read is granted and the three-tier condition
holds; instantiates the main theorem at resource = staff, action = read. -/
theorem requirePermission_three_tier_witness :
    (requirePermission ("staff" ++ ":" ++ "read")
        (some ⟨"id1", "a@x.com", false, ["staff:read"]⟩) = .next
          ⟨"id1", "a@x.com", false, ["staff:read"]⟩ ↔
      "*" ∈ ["staff:read"] ∨ ("staff" ++ ":" ++ "read") ∈ ["staff:read"] ∨
        ("staff" ++ ":*") ∈ ["staff:read"]) ∧
    (¬("*" ∈ ["staff:read"] ∨ ("staff" ++ ":" ++ "read") ∈ ["staff:read"] ∨
        ("staff" ++ ":*") ∈ ["staff:read"]) →
      requirePermission ("staff" ++ ":" ++ "read")
          (some ⟨"id1", "a@x.com", false, ["staff:read"]⟩)
        = .respond ⟨403, false, some "Insufficient permissions"⟩) :=
  requirePermission_three_tier "staff" "read"
    ⟨"id1", "a@x.com", false, ["staff:read"]⟩ (by decide)

/-- Lock check in StaffController.login (part_010):
`staff.lockedUntil && new Date(staff.lockedUntil) > new Date()`.
Timestamps count minutes; now is the current time. -/
def lockedActive (now : Nat) (s : StaffAccount) : Bool :=
  match s.lockedUntil with
  | none => false
  | some t => now < t

/-- Embedding of StaffModel.incrementFailedLogins on the matched row.  The
SQL UPDATE sets failed_login_attempts = failed_login_attempts + 1 and
locked_until = CASE WHEN failed_login_attempts >= 4 THEN NOW() + INTERVAL
'30 minutes' ELSE locked_until END; per SQL semantics both right-hand sides
read the pre-update row, so the CASE tests the old counter. -/
def incrementFailedLogins (now : Nat) (s : StaffAccount) : StaffAccount :=
  { s with
    failedLoginAttempts := s.failedLoginAttempts + 1,
    lockedUntil :=
      if s.failedLoginAttempts ≥ 4 then some (now + 30) else s.lockedUntil }

/-- Embedding of StaffModel.updateLastLogin on the matched row: SET
last_login_at = NOW(), failed_login_attempts = 0, locked_until = NULL. -/
def updateLastLogin (now : Nat) (s : StaffAccount) : StaffAccount :=
  { s with lastLoginAt := some now, failedLoginAttempts := 0,
           lockedUntil := none }

/-- UPDATE ... WHERE id = $1 over the staff table: the row function is
applied to every row whose id matches (id is the unique primary key). -/
def updateWhereId (db : List StaffAccount) (id : String)
    (f : StaffAccount → StaffAccount) : List StaffAccount :=
  db.map (fun s => if s.id == id then f s else s)

/-- Embedding of StaffController.login (part_010).  bcrypt verification is
passed in as the verify parameter (the source only inspects its boolean
result).  Returns the client-facing response and the staff table after the
attempt; the success body (token and public account view) carries no data
any claim inspects and is represented by the 200/success/no-error
response. -/
def login (verify : String → String → Bool) (now : Nat)
    (db : List StaffAccount) (email password : String) :
    ApiResponse × List StaffAccount :=
  match findByEmailWithPassword db email with
  | none => (⟨401, false, some "Invalid email or password"⟩, db)
  | some staff =>
    if lockedActive now staff then
      (⟨403, false,
        some "Account is temporarily locked due to multiple failed login attempts"⟩,
       db)
    else if staff.status != "active" then
      (⟨403, false, some "Account is not active"⟩, db)
    else if !(verify password staff.passwordHash) then
      (⟨401, false, some "Invalid email or password"⟩,
       updateWhereId db staff.id (incrementFailedLogins now))
    else
      (⟨200, true, none⟩, updateWhereId db staff.id (updateLastLogin now))

/-- Sample account used by concrete witnesses: active, not locked, with the
failed-attempt counter already at 4. -/
def acct4 : StaffAccount :=
  { id := "s1", email := "alice@akaind.ca", passwordHash := "h1",
    firstName := "Alice", lastName := "A", status := "active",
    isSuperAdmin := false, failedLoginAttempts := 4, lockedUntil := none,
    lastLoginAt := none, passwordChangedAt := none }

/-- Sample account used by concrete witnesses: currently locked (expiry at
minute 200). -/
def acctLocked : StaffAccount :=
  { id := "s2", email := "carol@akaind.ca", passwordHash := "h2",
    firstName := "Carol", lastName := "C", status := "active",
    isSuperAdmin := false, failedLoginAttempts := 5, lockedUntil := some 200,
    lastLoginAt := none, passwordChangedAt := none }

/-- C2: a failed login attempt against an existing, active, not-locked
account routes through incrementFailedLogins; when the stored counter is 4
the row ends with counter 5 and lockout-expiry 30 minutes after now, and
when the stored counter is in 0..3 the row ends with counter incremented by
one and lockout-expiry unchanged. -/
theorem incrementFailedLogins_lockout_threshold
    (verify : String → String → Bool) (now : Nat) (db : List StaffAccount)
    (email password : String) (a : StaffAccount)
    (hfind : findByEmailWithPassword db email = some a)
    (hlock : lockedActive now a = false)
    (hactive : a.status = "active")
    (hpw : verify password a.passwordHash = false) :
    (login verify now db email password).2
      = updateWhereId db a.id (incrementFailedLogins now) ∧
    (a.failedLoginAttempts = 4 →
      (incrementFailedLogins now a).failedLoginAttempts = 5 ∧
      (incrementFailedLogins now a).lockedUntil = some (now + 30)) ∧
    (a.failedLoginAttempts ≤ 3 →
      (incrementFailedLogins now a).failedLoginAttempts
        = a.failedLoginAttempts + 1 ∧
      (incrementFailedLogins now a).lockedUntil = a.lockedUntil) := by
  refine ⟨?_, ?_, ?_⟩
  · simp [login, hfind, hlock, hactive, hpw]
  · intro h4
    simp [incrementFailedLogins, h4]
  · intro h3
    have hlt : ¬ (a.failedLoginAttempts ≥ 4) := by omega
    simp [incrementFailedLogins, hlt]

/-- C2 witness: a wrong-password attempt against acct4 (counter 4, active,
unlocked) at minute 100; instantiates the main theorem, whose second
conjunct then yields counter 5 and lockout-expiry minute 130. -/
theorem incrementFailedLogins_lockout_threshold_witness :
    (login (fun _ _ => false) 100 [acct4] "alice@akaind.ca" "wrong").2
      = updateWhereId [acct4] acct4.id (incrementFailedLogins 100) ∧
    (acct4.failedLoginAttempts = 4 →
      (incrementFailedLogins 100 acct4).failedLoginAttempts = 5 ∧
      (incrementFailedLogins 100 acct4).lockedUntil = some (100 + 30)) ∧
    (acct4.failedLoginAttempts ≤ 3 →
      (incrementFailedLogins 100 acct4).failedLoginAttempts
        = acct4.failedLoginAttempts + 1 ∧
      (incrementFailedLogins 100 acct4).lockedUntil = acct4.lockedUntil) :=
  incrementFailedLogins_lockout_threshold (fun _ _ => false) 100 [acct4]
    "alice@akaind.ca" "wrong" acct4 rfl rfl rfl rfl

/-- C3: any login attempt against an account whose lockout-expiry is still
in the future is rejected with the AccountLocked response (HTTP 403) and
leaves the staff table unchanged.  The equation holds for every
verification function and every password, so neither the response nor the
stored state depends on the submitted password: the password is never
evaluated. -/
theorem login_locked_rejects_unchanged
    (verify : String → String → Bool) (now : Nat) (db : List StaffAccount)
    (email password : String) (a : StaffAccount)
    (hfind : findByEmailWithPassword db email = some a)
    (hlock : lockedActive now a = true) :
    login verify now db email password
      = (⟨403, false,
          some "Account is temporarily locked due to multiple failed login attempts"⟩,
         db) := by
  simp [login, hfind, hlock]

/-- C3 witness: at minute 100 a login against acctLocked (locked until
minute 200) with the correct password and a verifier that would accept it
is still rejected with the locked response, state unchanged. -/
theorem login_locked_rejects_unchanged_witness :
    login (fun p h => p == h) 100 [acctLocked] "carol@akaind.ca" "h2"
      = (⟨403, false,
          some "Account is temporarily locked due to multiple failed login attempts"⟩,
         [acctLocked]) :=
  login_locked_rejects_unchanged (fun p h => p == h) 100 [acctLocked]
    "carol@akaind.ca" "h2" acctLocked rfl rfl

/-- C7: the client-facing response to a login whose email matches no stored
account equals the response to a login whose email matches an existing
unlocked active account but whose password is wrong: both are the same
generic 401 invalid-credentials response, so the response does not reveal
whether the email exists. -/
theorem login_unknown_email_indistinguishable
    (verify : String → String → Bool) (now : Nat) (db : List StaffAccount)
    (email1 password1 email2 password2 : String) (a : StaffAccount)
    (hnone : findByEmailWithPassword db email1 = none)
    (hfind : findByEmailWithPassword db email2 = some a)
    (hlock : lockedActive now a = false)
    (hactive : a.status = "active")
    (hpw : verify password2 a.passwordHash = false) :
    (login verify now db email1 password1).1
      = (login verify now db email2 password2).1 ∧
    (login verify now db email1 password1).1
      = ⟨401, false, some "Invalid email or password"⟩ := by
  constructor
  · simp [login, hnone, hfind, hlock, hactive, hpw]
  · simp [login, hnone]

/-- C7 witness: against the table holding only acct4, the response to a
login for the unknown email bob@akaind.ca equals the response to a
wrong-password login for the stored email alice@akaind.ca, both the generic
401. -/
theorem login_unknown_email_indistinguishable_witness :
    (login (fun _ _ => false) 100 [acct4] "bob@akaind.ca" "pw1").1
      = (login (fun _ _ => false) 100 [acct4] "alice@akaind.ca" "pw2").1 ∧
    (login (fun _ _ => false) 100 [acct4] "bob@akaind.ca" "pw1").1
      = ⟨401, false, some "Invalid email or password"⟩ :=
  login_unknown_email_indistinguishable (fun _ _ => false) 100 [acct4]
    "bob@akaind.ca" "pw1" "alice@akaind.ca" "pw2" acct4 rfl rfl rfl rfl rfl

/-- Optional fields of StaffModel.update (the SQL SET list is built only
from the provided fields; phone/department/position/updatedBy are omitted
profile columns that no claim inspects). -/
structure UpdateFields where
  firstName : Option String
  lastName : Option String
  status : Option String
  deriving Repr, DecidableEq

/-- Row effect of StaffModel.update: each provided field overwrites the
column, absent fields leave it unchanged. -/
def applyUpdate (d : UpdateFields) (s : StaffAccount) : StaffAccount :=
  { s with firstName := d.firstName.getD s.firstName,
           lastName := d.lastName.getD s.lastName,
           status := d.status.getD s.status }

/-- Row effect of StaffModel.updatePassword: SET password_hash = $1,
password_changed_at = NOW(). -/
def updatePasswordRow (now : Nat) (newHash : String) (s : StaffAccount) :
    StaffAccount :=
  { s with passwordHash := newHash, passwordChangedAt := some now }

/-- Row of the staff_role_assignments table (assignment timestamp and
surrogate id omitted; the unique key is the (staff_id, role_id) pair). -/
structure RoleAssignment where
  staffId : String
  roleId : String
  assignedBy : Option String
  deriving Repr, DecidableEq

/-- Embedding of StaffModel.assignRole: INSERT ... ON CONFLICT
(staff_id, role_id) DO NOTHING against the UNIQUE(staff_id, role_id)
constraint — when a row with the pair exists the statement leaves the table
unchanged and raises no error, otherwise it inserts one row. -/
def assignRole (staffId roleId : String) (assignedBy : Option String)
    (t : List RoleAssignment) : List RoleAssignment :=
  if t.any (fun r => r.staffId == staffId && r.roleId == roleId) then t
  else t ++ [{ staffId := staffId, roleId := roleId, assignedBy := assignedBy }]

/-- Embedding of StaffModel.removeRole: DELETE ... WHERE staff_id = $1 AND
role_id = $2 (deleting zero rows is not an error). -/
def removeRole (staffId roleId : String) (t : List RoleAssignment) :
    List RoleAssignment :=
  t.filter (fun r => !(r.staffId == staffId && r.roleId == roleId))

/-- Durable store: the staff table and the role-assignment table. -/
structure DB where
  staff : List StaffAccount
  assignments : List RoleAssignment
  deriving Repr, DecidableEq

/-- Embedding of StaffModel.create: INSERT of a fresh row; the schema
defaults give status active, counter 0 and no lockout. -/
def createStaff (id email passwordHash firstName lastName : String)
    (db : List StaffAccount) : List StaffAccount :=
  db ++ [{ id := id, email := email, passwordHash := passwordHash,
           firstName := firstName, lastName := lastName, status := "active",
           isSuperAdmin := false, failedLoginAttempts := 0,
           lockedUntil := none, lastLoginAt := none,
           passwordChangedAt := none }]

/-- The store-mutating operations of the staff model reachable outside the
login success path (StaffModel.updateLastLogin is invoked solely on the
successful branch of StaffController.login and is therefore not among
them). -/
inductive CoreOp where
  | createOp (id email passwordHash firstName lastName : String)
  | updateOp (id : String) (d : UpdateFields)
  | updatePasswordOp (now : Nat) (id : String) (newHash : String)
  | incrementFailedOp (now : Nat) (id : String)
  | deleteOp (id : String)
  | assignRoleOp (staffId roleId : String) (assignedBy : Option String)
  | removeRoleOp (staffId roleId : String)
  deriving Repr, DecidableEq

/-- Effect of each core operation on the store. -/
def applyCoreOp : CoreOp → DB → DB
  | .createOp i e p f l, d => { d with staff := createStaff i e p f l d.staff }
  | .updateOp i u, d => { d with staff := updateWhereId d.staff i (applyUpdate u) }
  | .updatePasswordOp n i h, d =>
      { d with staff := updateWhereId d.staff i (updatePasswordRow n h) }
  | .incrementFailedOp n i, d =>
      { d with staff := updateWhereId d.staff i (incrementFailedLogins n) }
  | .deleteOp i, d => { d with staff := d.staff.filter (fun s => !(s.id == i)) }
  | .assignRoleOp s r b, d => { d with assignments := assignRole s r b d.assignments }
  | .removeRoleOp s r, d => { d with assignments := removeRole s r d.assignments }

/-- C4: a successful authentication routes the store change through
updateLastLogin, which sets the failed-attempt counter to 0 and clears the
lockout-expiry, whatever their previous values; and this is the only reset
path: every core operation reachable outside the login success path
produces staff rows whose counter equals an existing row's counter or that
counter plus one — never a reset — apart from the freshly inserted row of a
create, which starts a brand-new account at 0. -/
theorem login_success_resets_counter
    (verify : String → String → Bool) (now : Nat) (db : List StaffAccount)
    (email password : String) (a : StaffAccount)
    (hfind : findByEmailWithPassword db email = some a)
    (hlock : lockedActive now a = false)
    (hactive : a.status = "active")
    (hpw : verify password a.passwordHash = true) :
    (login verify now db email password).2
      = updateWhereId db a.id (updateLastLogin now) ∧
    (updateLastLogin now a).failedLoginAttempts = 0 ∧
    (updateLastLogin now a).lockedUntil = none ∧
    (∀ (op : CoreOp) (d : DB) (s' : StaffAccount),
      s' ∈ (applyCoreOp op d).staff →
      (∃ i e p f l, op = .createOp i e p f l ∧
        s' = { id := i, email := e, passwordHash := p, firstName := f,
               lastName := l, status := "active", isSuperAdmin := false,
               failedLoginAttempts := 0, lockedUntil := none,
               lastLoginAt := none, passwordChangedAt := none }) ∨
      (∃ s ∈ d.staff,
        s'.failedLoginAttempts = s.failedLoginAttempts ∨
        s'.failedLoginAttempts = s.failedLoginAttempts + 1)) := by
  refine ⟨?_, rfl, rfl, ?_⟩
  · simp [login, hfind, hlock, hactive, hpw]
  · intro op d s' hmem
    cases op with
    | createOp i e p f l =>
      simp only [applyCoreOp, createStaff, List.mem_append,
        List.mem_singleton] at hmem
      cases hmem with
      | inl h => exact Or.inr ⟨s', h, Or.inl rfl⟩
      | inr h => exact Or.inl ⟨i, e, p, f, l, rfl, h⟩
    | updateOp i u =>
      simp only [applyCoreOp, updateWhereId, List.mem_map] at hmem
      obtain ⟨s, hs, heq⟩ := hmem
      refine Or.inr ⟨s, hs, Or.inl ?_⟩
      split at heq <;> simp [← heq, applyUpdate]
    | updatePasswordOp n i h =>
      simp only [applyCoreOp, updateWhereId, List.mem_map] at hmem
      obtain ⟨s, hs, heq⟩ := hmem
      refine Or.inr ⟨s, hs, Or.inl ?_⟩
      split at heq <;> simp [← heq, updatePasswordRow]
    | incrementFailedOp n i =>
      simp only [applyCoreOp, updateWhereId, List.mem_map] at hmem
      obtain ⟨s, hs, heq⟩ := hmem
      refine Or.inr ⟨s, hs, ?_⟩
      split at heq
      · exact Or.inr (by simp [← heq, incrementFailedLogins])
      · exact Or.inl (by simp [← heq])
    | deleteOp i =>
      simp only [applyCoreOp, List.mem_filter] at hmem
      exact Or.inr ⟨s', hmem.1, Or.inl rfl⟩
    | assignRoleOp sid rid b =>
      exact Or.inr ⟨s', hmem, Or.inl rfl⟩
    | removeRoleOp sid rid =>
      exact Or.inr ⟨s', hmem, Or.inl rfl⟩

/-- C4 witness: a correct-password login for acct4 (counter 4) at minute
100; instantiates the main theorem: the store change is updateLastLogin,
which zeroes the counter and clears the lockout, and the no-other-reset
conjunct holds. -/
theorem login_success_resets_counter_witness :
    (login (fun p h => p == h) 100 [acct4] "alice@akaind.ca" "h1").2
      = updateWhereId [acct4] acct4.id (updateLastLogin 100) ∧
    (updateLastLogin 100 acct4).failedLoginAttempts = 0 ∧
    (updateLastLogin 100 acct4).lockedUntil = none ∧
    (∀ (op : CoreOp) (d : DB) (s' : StaffAccount),
      s' ∈ (applyCoreOp op d).staff →
      (∃ i e p f l, op = .createOp i e p f l ∧
        s' = { id := i, email := e, passwordHash := p, firstName := f,
               lastName := l, status := "active", isSuperAdmin := false,
               failedLoginAttempts := 0, lockedUntil := none,
               lastLoginAt := none, passwordChangedAt := none }) ∨
      (∃ s ∈ d.staff,
        s'.failedLoginAttempts = s.failedLoginAttempts ∨
        s'.failedLoginAttempts = s.failedLoginAttempts + 1)) :=
  login_success_resets_counter (fun p h => p == h) 100 [acct4]
    "alice@akaind.ca" "h1" acct4 rfl rfl rfl rfl

/-- Number of rows of the assignment table carrying a given
(staff_id, role_id) pair. -/
def matchCount (staffId roleId : String) (t : List RoleAssignment) : Nat :=
  t.countP (fun r => r.staffId == staffId && r.roleId == roleId)

/-- C9: role assignment is idempotent and role removal is total: a second
assignment of the same pair (with any assigning actor) leaves the table of
the first assignment unchanged; after an assignment the table holds exactly
one row for the pair (given the schema's uniqueness invariant beforehand);
and removing a pair that has no row is a no-op.  Neither repeated statement
errors: ON CONFLICT DO NOTHING suppresses the unique violation and DELETE
of zero rows succeeds. -/
theorem assignRole_idempotent_removeRole_total
    (staffId roleId : String) (b1 b2 : Option String)
    (t : List RoleAssignment)
    (hinv : matchCount staffId roleId t ≤ 1) :
    assignRole staffId roleId b2 (assignRole staffId roleId b1 t)
      = assignRole staffId roleId b1 t ∧
    matchCount staffId roleId (assignRole staffId roleId b1 t) = 1 ∧
    (∀ t' : List RoleAssignment, matchCount staffId roleId t' = 0 →
      removeRole staffId roleId t' = t') := by
  refine ⟨?_, ?_, ?_⟩
  · by_cases h : t.any (fun r => r.staffId == staffId && r.roleId == roleId)
    · simp [assignRole, h]
    · have hstep : assignRole staffId roleId b1 t
          = t ++ [(⟨staffId, roleId, b1⟩ : RoleAssignment)] := by
        simp [assignRole, h]
      have hany : ((t ++ [(⟨staffId, roleId, b1⟩ : RoleAssignment)]).any
          (fun r => r.staffId == staffId && r.roleId == roleId)) = true := by
        simp [List.any_append]
      rw [hstep, assignRole]
      simp [hany]
  · by_cases h : t.any (fun r => r.staffId == staffId && r.roleId == roleId)
    · have h1 : 0 < matchCount staffId roleId t := by
        rw [matchCount, List.countP_pos_iff]
        simpa [List.any_eq_true] using h
      have hstep : assignRole staffId roleId b1 t = t := by
        simp [assignRole, h]
      rw [hstep]
      omega
    · have h0 : matchCount staffId roleId t = 0 := by
        rw [matchCount, List.countP_eq_zero]
        intro a ha
        rw [List.any_eq_true] at h
        exact fun hc => h ⟨a, ha, hc⟩
      have hstep : assignRole staffId roleId b1 t
          = t ++ [(⟨staffId, roleId, b1⟩ : RoleAssignment)] := by
        simp [assignRole, h]
      rw [hstep, matchCount, List.countP_append]
      rw [matchCount] at h0
      simp [h0]
  · intro t' h0
    rw [matchCount, List.countP_eq_zero] at h0
    rw [removeRole, List.filter_eq_self]
    intro a ha
    have := h0 a ha
    simp only [Bool.not_eq_true']
    simpa using this

/-- C9 witness: assigning role r1 twice to s1 starting from the empty table
leaves one row and the second call is the identity; removing from the empty
table (no matching row) is a no-op. -/
theorem assignRole_idempotent_removeRole_total_witness :
    assignRole "s1" "r1" (some "admin2") (assignRole "s1" "r1" (some "admin1") [])
      = assignRole "s1" "r1" (some "admin1") [] ∧
    matchCount "s1" "r1" (assignRole "s1" "r1" (some "admin1") []) = 1 ∧
    (∀ t' : List RoleAssignment, matchCount "s1" "r1" t' = 0 →
      removeRole "s1" "r1" t' = t') :=
  assignRole_idempotent_removeRole_total "s1" "r1" (some "admin1")
    (some "admin2") [] (by decide)

/-- Embedding of StaffController.delete (part_010): the self-deletion guard
runs before the model is consulted; otherwise a missing target is 404 and
an existing target is removed (DELETE FROM staff WHERE id = $1). -/
def deleteEndpoint (callerId targetId : String) (db : List StaffAccount) :
    ApiResponse × List StaffAccount :=
  if targetId == callerId then
    (⟨400, false, some "Cannot delete your own account"⟩, db)
  else
    match findById db targetId with
    | none => (⟨404, false, some "Staff member not found"⟩, db)
    | some _ => (⟨200, true, none⟩, db.filter (fun s => !(s.id == targetId)))

/-- C10: when the target staff id equals the authenticated caller's own id,
the delete endpoint rejects the request with the 400 self-deletion error
and returns the staff table unchanged — the model's delete (and even its
findById) is never reached, so the caller's row survives. -/
theorem deleteEndpoint_rejects_self_delete
    (callerId targetId : String) (db : List StaffAccount)
    (h : targetId = callerId) :
    deleteEndpoint callerId targetId db
      = (⟨400, false, some "Cannot delete your own account"⟩, db) := by
  simp [deleteEndpoint, h]

/-- C10 witness: acct4's own session asking to delete acct4's id is
rejected with the 400 error and the table still holds the row. -/
theorem deleteEndpoint_rejects_self_delete_witness :
    deleteEndpoint "s1" "s1" [acct4]
      = (⟨400, false, some "Cannot delete your own account"⟩, [acct4]) :=
  deleteEndpoint_rejects_self_delete "s1" "s1" [acct4] rfl

/-- Stored account whose email carries an upper-case letter, used to show
that lookup is case-sensitive. -/
def acctMixedCase : StaffAccount :=
  { id := "s3", email := "Admin@akaind.ca", passwordHash := "h3",
    firstName := "Ada", lastName := "D", status := "active",
    isSuperAdmin := false, failedLoginAttempts := 0, lockedUntil := none,
    lastLoginAt := none, passwordChangedAt := none }

/-- Two strings are equal up to letter case when their characters agree
after lowercasing. -/
def eqIgnoreCase (a b : String) : Bool :=
  (a.toList.map Char.toLower) == (b.toList.map Char.toLower)

/-- C5 counterexample: the query email admin@akaind.ca differs from the
stored email Admin@akaind.ca only in letter case, yet both findByEmail and
findByEmailWithPassword return no account — email lookup is not
case-insensitive (the column is VARCHAR and the WHERE clause is plain
equality). -/
theorem findByEmail_case_sensitivity_cex :
    eqIgnoreCase "admin@akaind.ca" acctMixedCase.email = true ∧
    "admin@akaind.ca" ≠ acctMixedCase.email ∧
    findByEmail [acctMixedCase] "admin@akaind.ca" = none ∧
    findByEmailWithPassword [acctMixedCase] "admin@akaind.ca" = none := by
  refine ⟨by decide, by decide, by rfl, by rfl⟩

/-- C5 amended: email lookup is exact (case-sensitive): findByEmail returns
some account precisely when a stored account's email is literally equal to
the query string, any returned account's email equals the query literally,
and the login path's findByEmailWithPassword applies the same WHERE clause
and so agrees with findByEmail on which account matches. -/
theorem findByEmail_exact_match (db : List StaffAccount) (email : String) :
    ((findByEmail db email).isSome ↔ ∃ a ∈ db, a.email = email) ∧
    (∀ a, findByEmail db email = some a → a ∈ db ∧ a.email = email) ∧
    findByEmailWithPassword db email = findByEmail db email := by
  refine ⟨?_, ?_, rfl⟩
  · rw [findByEmail, List.find?_isSome]
    simp
  · intro a h
    refine ⟨List.mem_of_find?_eq_some h, ?_⟩
    have := List.find?_some h
    simpa using this

/-- C5 amended witness: instantiated at the one-row table holding
acctMixedCase and its literal stored email, for which the lookup succeeds. -/
theorem findByEmail_exact_match_witness :
    ((findByEmail [acctMixedCase] "Admin@akaind.ca").isSome ↔
      ∃ a ∈ [acctMixedCase], a.email = "Admin@akaind.ca") ∧
    (∀ a, findByEmail [acctMixedCase] "Admin@akaind.ca" = some a →
      a ∈ [acctMixedCase] ∧ a.email = "Admin@akaind.ca") ∧
    findByEmailWithPassword [acctMixedCase] "Admin@akaind.ca"
      = findByEmail [acctMixedCase] "Admin@akaind.ca" :=
  findByEmail_exact_match [acctMixedCase] "Admin@akaind.ca"

/-- Payload embedded in a verified bearer token (the JWT claims read by the
middleware). -/
structure TokenPayload where
  staffId : String
  email : String
  isAdmin : Bool
  permissions : List String
  deriving Repr, DecidableEq

/-- Embedding of authenticateStaff (auth.middleware.ts).  JWT verification
is passed in as the verifyTok parameter: none models the verifyToken throw
on an invalid signature or expiry (caught and mapped to 401), some models a
successfully decoded payload.  The header check and the substring(7) token
extraction mirror the source. -/
def authenticateStaff (verifyTok : String → Option TokenPayload)
    (db : List StaffAccount) (authHeader : Option String) : MwResult :=
  match authHeader with
  | none => .respond ⟨401, false, some "No authentication token provided"⟩
  | some h =>
    if !(h.startsWith "Bearer ") then
      .respond ⟨401, false, some "No authentication token provided"⟩
    else
      match verifyTok (h.drop 7) with
      | none =>
        .respond ⟨401, false, some "Invalid or expired authentication token"⟩
      | some payload =>
        match findById db payload.staffId with
        | none => .respond ⟨401, false, some "Staff member not found"⟩
        | some staff =>
          if staff.status != "active" then
            .respond ⟨403, false, some "Staff account is not active"⟩
          else
            .next ⟨payload.staffId, payload.email, payload.isAdmin,
                   payload.permissions⟩

/-- Bearer token carried by the authorization header, when one is present
and Bearer-prefixed. -/
def bearerToken (authHeader : Option String) : Option String :=
  match authHeader with
  | none => none
  | some h => if h.startsWith "Bearer " then some (h.drop 7) else none

/-- HTTP status of a middleware outcome (none when control passes on). -/
def statusOf : MwResult → Option Nat
  | .next _ => none
  | .respond resp => some resp.status

/-- C6: the interceptor responds 401 exactly when no bearer token is
present, token verification fails, or no account exists for the token's
staff id; it responds 403 exactly when the re-fetched account exists with a
status other than active; and it hands control to the next handler exactly
when the account is active, attaching the token's embedded identity and
permission set. -/
theorem authenticateStaff_classification
    (verifyTok : String → Option TokenPayload) (db : List StaffAccount)
    (authHeader : Option String) :
    (statusOf (authenticateStaff verifyTok db authHeader) = some 401 ↔
      bearerToken authHeader = none ∨
      (∃ tok, bearerToken authHeader = some tok ∧ verifyTok tok = none) ∨
      (∃ tok p, bearerToken authHeader = some tok ∧ verifyTok tok = some p ∧
        findById db p.staffId = none)) ∧
    (statusOf (authenticateStaff verifyTok db authHeader) = some 403 ↔
      ∃ tok p a, bearerToken authHeader = some tok ∧ verifyTok tok = some p ∧
        findById db p.staffId = some a ∧ a.status ≠ "active") ∧
    (∀ st : AuthStaff,
      authenticateStaff verifyTok db authHeader = .next st ↔
      ∃ tok p a, bearerToken authHeader = some tok ∧ verifyTok tok = some p ∧
        findById db p.staffId = some a ∧ a.status = "active" ∧
        st = ⟨p.staffId, p.email, p.isAdmin, p.permissions⟩) := by
  cases authHeader with
  | none => simp [authenticateStaff, bearerToken, statusOf]
  | some h =>
    by_cases hb : h.startsWith "Bearer "
    · cases hv : verifyTok (h.drop 7) with
      | none => simp [authenticateStaff, bearerToken, statusOf, hb, hv]
      | some p =>
        cases hf : findById db p.staffId with
        | none => simp [authenticateStaff, bearerToken, statusOf, hb, hv, hf]
        | some a =>
          by_cases hs : a.status = "active"
          · simp only [authenticateStaff, bearerToken, statusOf, hb, hv, hf,
              hs]
            refine ⟨by simp [hv, hf], by simp [hv, hf, hs], ?_⟩
            intro st
            simp [hv, hf, hs, eq_comm]
          · simp [authenticateStaff, bearerToken, statusOf, hb, hv, hf, hs]
    · simp [authenticateStaff, bearerToken, statusOf, hb]

/-- C6 witness: a request carrying a Bearer token that decodes to acct4's
id against the one-row table holding acct4 (active) passes authentication,
so the classification theorem instantiates with the success branch. -/
theorem authenticateStaff_classification_witness :
    (statusOf (authenticateStaff
        (fun t => if t == "tok1" then some ⟨"s1", "alice@akaind.ca", false, ["staff:read"]⟩ else none)
        [acct4] (some "Bearer tok1")) = some 401 ↔
      bearerToken (some "Bearer tok1") = none ∨
      (∃ tok, bearerToken (some "Bearer tok1") = some tok ∧
        (fun t => if t == "tok1" then some (⟨"s1", "alice@akaind.ca", false, ["staff:read"]⟩ : TokenPayload) else none) tok = none) ∨
      (∃ tok p, bearerToken (some "Bearer tok1") = some tok ∧
        (fun t => if t == "tok1" then some (⟨"s1", "alice@akaind.ca", false, ["staff:read"]⟩ : TokenPayload) else none) tok = some p ∧
        findById [acct4] p.staffId = none)) ∧
    (statusOf (authenticateStaff
        (fun t => if t == "tok1" then some ⟨"s1", "alice@akaind.ca", false, ["staff:read"]⟩ else none)
        [acct4] (some "Bearer tok1")) = some 403 ↔
      ∃ tok p a, bearerToken (some "Bearer tok1") = some tok ∧
        (fun t => if t == "tok1" then some (⟨"s1", "alice@akaind.ca", false, ["staff:read"]⟩ : TokenPayload) else none) tok = some p ∧
        findById [acct4] p.staffId = some a ∧ a.status ≠ "active") ∧
    (∀ st : AuthStaff,
      authenticateStaff
        (fun t => if t == "tok1" then some ⟨"s1", "alice@akaind.ca", false, ["staff:read"]⟩ else none)
        [acct4] (some "Bearer tok1") = .next st ↔
      ∃ tok p a, bearerToken (some "Bearer tok1") = some tok ∧
        (fun t => if t == "tok1" then some (⟨"s1", "alice@akaind.ca", false, ["staff:read"]⟩ : TokenPayload) else none) tok = some p ∧
        findById [acct4] p.staffId = some a ∧ a.status = "active" ∧
        st = ⟨p.staffId, p.email, p.isAdmin, p.permissions⟩) :=
  authenticateStaff_classification
    (fun t => if t == "tok1" then some ⟨"s1", "alice@akaind.ca", false, ["staff:read"]⟩ else none)
    [acct4] (some "Bearer tok1")

/-- Request data read by the activity logger: method, path and query (the
query object as key-value pairs), the route's id parameter, the attached
identity when authentication ran, and the client network data. -/
structure ReqInfo where
  method : String
  path : String
  query : List (String × String)
  paramsId : Option String
  staff : Option AuthStaff
  ip : Option String
  userAgent : Option String
  deriving Repr, DecidableEq

/-- Structured detail blob stored with each log row (the JSON.stringify of
method, path and query in the source). -/
structure LogDetails where
  method : String
  path : String
  query : List (String × String)
  deriving Repr, DecidableEq

/-- Row of staff_activity_logs as inserted by the logger. -/
structure ActivityLogEntry where
  staffId : Option String
  action : String
  resourceType : Option String
  resourceId : Option String
  details : LogDetails
  ip : Option String
  userAgent : Option String
  status : String
  errorMessage : Option String
  deriving Repr, DecidableEq

/-- Row built by the logActivity callback (activity-logger middleware,
part_009) from the request and the response it observed: staff_id is
req.staff?.id or null, status is success when the response status code is
below 400 and error otherwise, and the details capture method, path and
query. -/
def logActivityEntry (action : String) (resourceType : Option String)
    (req : ReqInfo) (statusCode : Nat) (bodyError : Option String) :
    ActivityLogEntry :=
  { staffId := req.staff.map (fun s => s.id),
    action := action, resourceType := resourceType,
    resourceId := req.paramsId,
    details := { method := req.method, path := req.path, query := req.query },
    ip := req.ip, userAgent := req.userAgent,
    status := if statusCode < 400 then "success" else "error",
    errorMessage := bodyError }

/-- Request handling under the logActivity wrapper.  The wrapper replaces
res.json so that each invocation schedules exactly one INSERT into
staff_activity_logs after the response is sent; a handler produces one
response per request (one res.json call), so running the wrapped endpoint
appends exactly one entry to the log whatever the handler's outcome.  The
handler yields the response status code and the error field of the body. -/
def runWithActivityLog (action : String) (resourceType : Option String)
    (handler : ReqInfo → Nat × Option String) (req : ReqInfo)
    (log : List ActivityLogEntry) :
    (Nat × Option String) × List ActivityLogEntry :=
  let res := handler req
  (res, log ++ [logActivityEntry action resourceType req res.1 res.2])

/-- C8: every run of an endpoint wrapped by the activity logger, whatever
the handler's outcome, appends exactly one ActivityLogEntry, whose outcome
is success when the response status code is strictly below 400 and error
otherwise, whose staff id mirrors the attached identity (null when none is
attached, as on a failed login), and whose detail blob records the request
method, path and query. -/
theorem logActivity_exactly_one_entry
    (action : String) (resourceType : Option String)
    (handler : ReqInfo → Nat × Option String) (req : ReqInfo)
    (log : List ActivityLogEntry) :
    (runWithActivityLog action resourceType handler req log).2
      = log ++ [logActivityEntry action resourceType req
          (handler req).1 (handler req).2] ∧
    (runWithActivityLog action resourceType handler req log).2.length
      = log.length + 1 ∧
    (logActivityEntry action resourceType req
        (handler req).1 (handler req).2).status
      = (if (handler req).1 < 400 then "success" else "error") ∧
    (logActivityEntry action resourceType req
        (handler req).1 (handler req).2).staffId
      = req.staff.map (fun s => s.id) ∧
    (logActivityEntry action resourceType req
        (handler req).1 (handler req).2).details
      = ⟨req.method, req.path, req.query⟩ := by
  refine ⟨rfl, ?_, rfl, rfl, rfl⟩
  simp [runWithActivityLog]

end StaffCore
